import Mathlib

/-!
Verification of the WhatsApp bulk document sender
(`send_whatsapp_upload_and_broadcast.py`) against its specification.

The Python script is shallowly embedded: pure helpers become Lean
functions; the process environment becomes an association list; the
HTTP transport, file system and wall clock become explicit oracle
inputs (a `World` value); the `main` control flow becomes a total
function producing a `RunOutcome` that records the exit code, the
network events issued, and the failure-export artifact content.

String operations are carried out on `List Char` (via `String.toList`
and `List.asString`) so that every definition evaluates inside the
kernel; `pyStrip` and `pyLower` model Python `str.strip()` and
`str.lower()` on the character lists.
-/

/-! ## String helpers -/

/-- Python `str.strip()`: drop leading and trailing whitespace. -/
def pyStrip (s : String) : String :=
  ((s.toList.dropWhile Char.isWhitespace).reverse.dropWhile Char.isWhitespace).reverse.asString

/-- Python `str.lower()` on the ASCII letters this program compares. -/
def pyLower (s : String) : String :=
  (s.toList.map Char.toLower).asString

/-- `sanitize_phone` (source lines 215-232): strip every non-digit
character, `re.sub(r"\D", "", raw)`. -/
def sanitize_phone (raw : String) : String :=
  (raw.toList.filter Char.isDigit).asString

/-- `validate_phone_number` (source lines 235-246):
`len(phone) >= 8 and phone.isdigit()`. -/
def validate_phone_number (phone : String) : Bool :=
  decide (8 ≤ phone.toList.length) && phone.toList.all Char.isDigit

/-! ## Recipient loader -/

/-- One iteration of the row loop of `read_numbers_from_csv` (source
lines 279-299): an empty row is skipped, only the first field is used,
it is stripped, an empty value is skipped, the rest is sanitized to
digits and kept only when `validate_phone_number` accepts it. -/
def process_row (row : List String) : Option String :=
  match row with
  | [] => none
  | f :: _ =>
    let raw := pyStrip f
    if raw = "" then none
    else
      let digits := sanitize_phone raw
      if validate_phone_number digits then some digits else none

/-- `read_numbers_from_csv` (source lines 249-312) on the parsed rows of
the CSV file: the accepted, sanitized numbers in file order; bad rows
are skipped, never fatal. -/
def read_numbers_from_csv (rows : List (List String)) : List String :=
  rows.filterMap process_row

/-- The sanitized first field of a row (when the row is non-empty);
used to state that the loader keeps accepted rows in file order. -/
def first_field_digits (row : List String) : Option String :=
  row.head?.map (fun fld => sanitize_phone (pyStrip fld))

theorem process_row_eq (row : List String) :
    process_row row = (first_field_digits row).bind
      (fun s => if validate_phone_number s then some s else none) := by
  cases row with
  | nil => rfl
  | cons f t =>
    show (if pyStrip f = "" then none
          else if validate_phone_number (sanitize_phone (pyStrip f))
            then some (sanitize_phone (pyStrip f)) else none)
        = if validate_phone_number (sanitize_phone (pyStrip f))
            then some (sanitize_phone (pyStrip f)) else none
    by_cases h : pyStrip f = ""
    · rw [if_pos h, h]
      rfl
    · rw [if_neg h]

theorem loader_eq (rows : List (List String)) :
    read_numbers_from_csv rows
      = (rows.filterMap first_field_digits).filter
          (fun s => validate_phone_number s) := by
  induction rows with
  | nil => rfl
  | cons row rest ih =>
    simp only [read_numbers_from_csv, List.filterMap_cons] at *
    rw [process_row_eq]
    cases hf : first_field_digits row with
    | none => simpa using ih
    | some s =>
      simp only [Option.some_bind]
      by_cases hv : validate_phone_number s
      · simp [hv, List.filter_cons, ih]
      · simp [hv, List.filter_cons, ih]

/-- C4: every number produced by the recipient loader is a string of at
least 8 characters, all of them digits; moreover the output is exactly
the sanitized first fields of the rows, in file order, filtered by the
acceptance rule — rows that do not reduce to at least 8 digits are
skipped (the loader is total, it never raises on a bad row). -/
theorem c4_recipient_loader (rows : List (List String)) :
    (∀ n ∈ read_numbers_from_csv rows,
        8 ≤ n.toList.length ∧ n.toList.all Char.isDigit = true) ∧
    read_numbers_from_csv rows
      = (rows.filterMap first_field_digits).filter
          (fun s => validate_phone_number s) := by
  refine ⟨?_, loader_eq rows⟩
  intro n hn
  rw [loader_eq] at hn
  have hv : validate_phone_number n = true := (List.mem_filter.mp hn).2
  unfold validate_phone_number at hv
  have h1 := (Bool.and_eq_true _ _).mp hv
  exact ⟨of_decide_eq_true h1.1, h1.2⟩

/-- Witness for C4, on the scenario rows of the specification:
`+27821234567`, `abc`, `27829876543` and an empty line. -/
theorem c4_recipient_loader_witness :
    read_numbers_from_csv [["+27821234567"], ["abc"], ["27829876543"], []]
        = ["27821234567", "27829876543"] ∧
    (∀ n ∈ read_numbers_from_csv [["+27821234567"], ["abc"], ["27829876543"], []],
        8 ≤ n.toList.length ∧ n.toList.all Char.isDigit = true) :=
  ⟨by decide, (c4_recipient_loader [["+27821234567"], ["abc"], ["27829876543"], []]).1⟩

/-! ## The process environment and the configuration merge -/

/-- The process environment: an association list of variable bindings,
read through `envGet` (first binding wins). -/
abbrev Env := List (String × String)

/-- `os.getenv k`. -/
def envGet (e : Env) (k : String) : Option String :=
  match e with
  | [] => none
  | kv :: rest => if kv.1 = k then some kv.2 else envGet rest k

/-- `os.getenv(k, d)`. -/
def envGetD (e : Env) (k d : String) : String := (envGet e k).getD d

/-- `os.environ[k] = v`: bind `k` to `v`, replacing any previous binding. -/
def setenv (e : Env) (k v : String) : Env :=
  (k, v) :: e.filter (fun kv => kv.1 != k)

/-- `apply_env` (source lines 174-196): each binding loaded from the
override file is applied only when the key is not already present in the
process environment — the real environment is never clobbered. -/
def apply_env (e : Env) (vals : List (String × String)) : Env :=
  vals.foldl (fun e kv => if (envGet e kv.1).isSome then e else setenv e kv.1 kv.2) e

theorem apply_env_cons (e : Env) (kv : String × String) (rest : List (String × String)) :
    apply_env e (kv :: rest)
      = apply_env (if (envGet e kv.1).isSome then e else setenv e kv.1 kv.2) rest := rfl

theorem envGet_setenv_self (e : Env) (k v : String) :
    envGet (setenv e k v) k = some v := by
  simp [setenv, envGet]

theorem envGet_filter_ne (e : Env) (k k' : String) (h : k' ≠ k) :
    envGet (e.filter (fun kv => kv.1 != k')) k = envGet e k := by
  induction e with
  | nil => rfl
  | cons kv rest ih =>
    by_cases hk : kv.1 = k'
    · have hkk : kv.1 ≠ k := by rw [hk]; exact h
      simp [List.filter_cons, hk, envGet, hkk, ih, h, Ne.symm h]
    · by_cases hkk : kv.1 = k <;>
        simp [List.filter_cons, hk, envGet, hkk, ih, h, Ne.symm h]

theorem envGet_setenv_ne (e : Env) (k k' v : String) (h : k' ≠ k) :
    envGet (setenv e k' v) k = envGet e k := by
  simp only [setenv, envGet, if_neg h]
  exact envGet_filter_ne e k k' h

theorem envGet_apply_env_some (vals : List (String × String)) :
    ∀ (e : Env) (k v : String), envGet e k = some v →
      envGet (apply_env e vals) k = some v := by
  induction vals with
  | nil => intro e k v h; exact h
  | cons kv rest ih =>
    intro e k v h
    rw [apply_env_cons]
    by_cases hk : kv.1 = k
    · rw [hk, h]
      exact ih e k v h
    · by_cases hs : (envGet e kv.1).isSome
      · rw [if_pos hs]; exact ih e k v h
      · rw [if_neg hs]
        exact ih _ k v (by rw [envGet_setenv_ne _ _ _ _ hk]; exact h)

/-- C3: override-file merge law.  A key already bound in the process
environment keeps its environment value after the override file is
applied; a key absent from the environment receives its override-file
value. -/
theorem c3_env_merge_precedence (e : Env) (vals : List (String × String)) (k : String) :
    (∀ v, envGet e k = some v → envGet (apply_env e vals) k = some v) ∧
    (envGet e k = none → (vals.map Prod.fst).Nodup →
      ∀ v', (k, v') ∈ vals → envGet (apply_env e vals) k = some v') := by
  constructor
  · intro v h
    exact envGet_apply_env_some vals e k v h
  · intro hnone hnodup v' hmem
    induction vals generalizing e with
    | nil => cases hmem
    | cons kv rest ih =>
      obtain ⟨k1, v1⟩ := kv
      have hnd := List.nodup_cons.mp hnodup
      rw [apply_env_cons]
      rcases List.mem_cons.mp hmem with heq | htail
      · injection heq with h1 h2
        subst h1; subst h2
        simp only [hnone, Option.isSome_none, Bool.false_eq_true, if_false]
        exact envGet_apply_env_some rest _ k v' (envGet_setenv_self e k v')
      · have hkmem : k ∈ rest.map Prod.fst := List.mem_map.mpr ⟨(k, v'), htail, rfl⟩
        have hne : k1 ≠ k := fun hh => hnd.1 (hh ▸ hkmem)
        by_cases hs : (envGet e k1).isSome
        · rw [if_pos hs]
          exact ih e hnone hnd.2 htail
        · rw [if_neg hs]
          exact ih _ (by rw [envGet_setenv_ne _ _ _ _ hne]; exact hnone) hnd.2 htail

/-- Witness for C3: `HOME` is set in the environment and in the override
file (environment wins); `RATE` only in the override file (file value
applied). -/
theorem c3_env_merge_precedence_witness :
    envGet (apply_env [("HOME", "old")] [("HOME", "new"), ("RATE", "2")]) "HOME"
        = some "old" ∧
    envGet (apply_env [("HOME", "old")] [("HOME", "new"), ("RATE", "2")]) "RATE"
        = some "2" :=
  ⟨(c3_env_merge_precedence [("HOME", "old")] [("HOME", "new"), ("RATE", "2")] "HOME").1
      "old" rfl,
   (c3_env_merge_precedence [("HOME", "old")] [("HOME", "new"), ("RATE", "2")] "RATE").2
      rfl (by decide) "2" (by decide)⟩

/-! ## Command-line flags -/

/-- Split a character list at the first occurrence of `c`: the content
of Python `s.split(c, 1)` when it yields two parts, `none` otherwise. -/
def splitFirst (c : Char) : List Char → Option (List Char × List Char)
  | [] => none
  | x :: xs =>
    if x = c then some ([], xs)
    else (splitFirst c xs).map (fun p => (x :: p.1, p.2))

/-- `a.split("=", 1)[1]` for an argument known to contain `=`. -/
def afterFirstEq (a : String) : String :=
  match splitFirst '=' a.toList with
  | some p => p.2.asString
  | none => a

/-- The value of a command-line flag (Python returns `True` for a bare
flag and a string for `--name=value`). -/
inductive CliVal
  | flag
  | value (s : String)
deriving DecidableEq, Repr

/-- `get_cli_flag` (source lines 571-592) over the argument vector: the
first argument equal to `name` yields `flag`; the first argument of the
form `name=v` yields `value v`; otherwise the scan continues; absence
yields `none` (the caller's default). -/
def get_cli_flag (argv : List String) (name : String) : Option CliVal :=
  match argv with
  | [] => none
  | a :: rest =>
    if a = name then some .flag
    else if (name ++ "=").toList.isPrefixOf a.toList then some (.value (afterFirstEq a))
    else get_cli_flag rest name

/-- One string-valued CLI flag (source lines 690-701): an absent flag
contributes no override; `--flag=v` contributes the binding `key=v`; a
bare `--flag` stores Python `True` in `cli_overrides`, and the later
`os.environ[key] = True` assignment raises a TypeError — modelled as
`none` (the run dies in the outer exception handler). -/
def strFlagEntry (argv : List String) (flag key : String) : Option (List (String × String)) :=
  match get_cli_flag argv flag with
  | Option.none => some []
  | some (.value s) => some [(key, s)]
  | some .flag => none

/-- The dry-run override (source lines 702-703): added whenever
`get_cli_flag("--dry-run", False)` is truthy — a bare flag (Python
`True`) or a non-empty `--dry-run=value`. -/
def dry_run_entries (argv : List String) : List (String × String) :=
  match get_cli_flag argv "--dry-run" with
  | some .flag => [("DRY_RUN", "true")]
  | some (.value s) => if s = "" then [] else [("DRY_RUN", "true")]
  | Option.none => []

/-- `cli_overrides` (source lines 689-707): the environment bindings the
command line contributes, in insertion order; `none` when applying them
would crash with a TypeError. -/
def build_cli_overrides (argv : List String) : Option (List (String × String)) := do
  let a ← strFlagEntry argv "--csv" "CSV_PATH"
  let b ← strFlagEntry argv "--pdf" "PDF_PATH"
  let c ← strFlagEntry argv "--caption" "CAPTION"
  let d ← strFlagEntry argv "--filename" "FILENAME"
  let e ← strFlagEntry argv "--rate" "RATE"
  let f ← strFlagEntry argv "--template" "TEMPLATE"
  pure (a ++ (b ++ (c ++ (d ++ (e ++ (f ++ dry_run_entries argv))))))

/-- `for key, value in cli_overrides.items(): os.environ[key] = value`
(source lines 706-707): command-line bindings clobber the environment. -/
def apply_cli_overrides (e : Env) (ov : List (String × String)) : Env :=
  ov.foldl (fun e kv => setenv e kv.1 kv.2) e

/-- The full environment-merge pipeline of `main` (source lines 684-707):
override file applied without clobbering, then command-line overrides
applied with clobbering. -/
def resolve_env (env0 : Env) (fileVals : List (String × String)) (argv : List String) :
    Option Env :=
  (build_cli_overrides argv).map (apply_cli_overrides (apply_env env0 fileVals))

/-! ## The gathered configuration and its validation -/

/-- The `config` dictionary gathered in `main` (source lines 711-722). -/
structure Config where
  phone_number_id : Option String
  access_token : Option String
  graph_ver : String
  csv_path : Option String
  pdf_path : Option String
  caption : String
  filename : Option String
  rate : String
  template : String
  dry_run : Bool
deriving DecidableEq, Repr

/-- Gathering of `config` from the resolved environment
(source lines 711-722). -/
def gather_config (e : Env) : Config :=
  { phone_number_id := envGet e "WA_PHONE_NUMBER_ID"
    access_token := envGet e "WA_ACCESS_TOKEN"
    graph_ver := envGetD e "WA_GRAPH_VERSION" "v20.0"
    csv_path := envGet e "CSV_PATH"
    pdf_path := envGet e "PDF_PATH"
    caption := envGetD e "CAPTION" ""
    filename := envGet e "FILENAME"
    rate := envGetD e "RATE" "0.5"
    template := envGetD e "TEMPLATE" ""
    dry_run := ["1", "true", "yes"].contains (pyLower (envGetD e "DRY_RUN" "false")) }

/-- Python truthiness of an optional string (`not config.get(key)`). -/
def optFalsy (o : Option String) : Bool :=
  match o with
  | Option.none => true
  | some s => s == ""

/-- The numeric value of a digit list. -/
def digitsVal (cs : List Char) : Nat :=
  cs.foldl (fun acc c => 10 * acc + (c.toNat - 48)) 0

/-- An unnormalized decimal number: sign, digit value with the dot
removed, and number of fractional digits (the represented value is
`(-1)^neg * num / 10^scale`). -/
structure PyFloat where
  neg : Bool
  num : Nat
  scale : Nat
deriving DecidableEq, Repr

/-- `float(x) < 0`: the parsed value is strictly negative. -/
def PyFloat.isNeg (f : PyFloat) : Bool := f.neg && decide (0 < f.num)

/-- Model of Python `float()` restricted to plain decimal literals
(optional sign, digits, at most one dot, at least one digit): the only
shapes the RATE setting takes in this program.  Exponents, `inf`, `nan`,
underscores and surrounding whitespace are outside the model. -/
def parse_float (s : String) : Option PyFloat :=
  let cs0 := s.toList
  let (neg, cs) :=
    match cs0 with
    | '-' :: rest => (true, rest)
    | '+' :: rest => (false, rest)
    | rest => (false, rest)
  if cs.all (fun c => c.isDigit || c = '.') && cs.any Char.isDigit
      && decide (cs.count '.' ≤ 1) then
    match splitFirst '.' cs with
    | Option.none => some ⟨neg, digitsVal cs, 0⟩
    | some p => some ⟨neg, digitsVal (p.1 ++ p.2), p.2.length⟩
  else none

/-- `validate_configuration` (source lines 595-650): the accumulated
error list, in source order — required fields, file existence (the file
system is the two boolean inputs), rate parse and sign, template shape
(`':' in template`).  Validation passes exactly when the list is empty. -/
def validate_configuration (pdf_exists csv_exists : Bool) (c : Config) : List String :=
  (if optFalsy c.phone_number_id then ["WA_PHONE_NUMBER_ID is required"] else [])
  ++ (if optFalsy c.access_token then ["WA_ACCESS_TOKEN is required"] else [])
  ++ (if optFalsy c.csv_path then ["CSV_PATH is required"] else [])
  ++ (if optFalsy c.pdf_path then ["PDF_PATH is required"] else [])
  ++ (if !optFalsy c.pdf_path && !pdf_exists then
        ["PDF file not found: " ++ c.pdf_path.getD ""] else [])
  ++ (if !optFalsy c.csv_path && !csv_exists then
        ["CSV file not found: " ++ c.csv_path.getD ""] else [])
  ++ (match parse_float c.rate with
      | Option.none => ["RATE must be a valid number, got: " ++ c.rate]
      | some q => if q.isNeg then ["RATE must be non-negative"] else [])
  ++ (if c.template != "" && !(c.template.toList.contains ':') then
        ["TEMPLATE must be in format name:lang"] else [])

/-- The template parse in `main` (source lines 758-764):
`config["template"].split(":", 1)` unpacked into name and language;
`none` is the ValueError path (no colon present). -/
def parse_template (t : String) : Option (String × String) :=
  (splitFirst ':' t.toList).map (fun p => (p.1.asString, p.2.asString))

/-- The template-configuration step of `main` (source lines 757-764):
an empty reference means no template; a parse failure is fatal. -/
def template_step (t : String) : Except Unit (Option (String × String)) :=
  if t = "" then .ok Option.none
  else
    match parse_template t with
    | some nl => .ok (some nl)
    | Option.none => .error ()

/-! ## Command-line precedence (C6) -/

/-- Left-biased choice on optional values. -/
def orO (a b : Option String) : Option String :=
  match a with
  | some v => some v
  | Option.none => b

theorem orO_some (v : String) (b : Option String) : orO (some v) b = some v := rfl

theorem orO_none (b : Option String) : orO none b = b := rfl

theorem orO_none_right (a : Option String) : orO a none = a := by
  cases a <;> rfl

theorem orO_assoc (a b c : Option String) : orO (orO a b) c = orO a (orO b c) := by
  cases a <;> rfl

/-- The last binding of `k` in a list of overrides (the binding that
survives a sequence of clobbering `os.environ[k] = v` assignments). -/
def lastVal : List (String × String) → String → Option String
  | [], _ => none
  | kv :: rest, k => orO (lastVal rest k) (if kv.1 = k then some kv.2 else none)

theorem envGet_apply_cli (ov : List (String × String)) :
    ∀ (e : Env) (k : String),
      envGet (apply_cli_overrides e ov) k = orO (lastVal ov k) (envGet e k) := by
  induction ov with
  | nil => intro e k; rfl
  | cons kv rest ih =>
    intro e k
    show envGet (apply_cli_overrides (setenv e kv.1 kv.2) rest) k = _
    rw [ih, lastVal, orO_assoc]
    rcases hl : lastVal rest k with _ | v
    · rw [orO_none, orO_none]
      by_cases hk : kv.1 = k
      · rw [if_pos hk, ← hk, envGet_setenv_self, orO_some]
      · rw [if_neg hk, envGet_setenv_ne _ _ _ _ hk, orO_none]
    · rw [orO_some, orO_some]

theorem lastVal_append (l1 l2 : List (String × String)) (k : String) :
    lastVal (l1 ++ l2) k = orO (lastVal l2 k) (lastVal l1 k) := by
  induction l1 with
  | nil => rw [List.nil_append, lastVal, orO_none_right]
  | cons kv rest ih =>
    rw [List.cons_append, lastVal, ih, lastVal, orO_assoc]

theorem lastVal_of_keys_ne (l : List (String × String)) (k : String)
    (h : ∀ p ∈ l, p.1 ≠ k) : lastVal l k = none := by
  induction l with
  | nil => rfl
  | cons kv rest ih =>
    rw [lastVal, ih (fun p hp => h p (List.mem_cons_of_mem kv hp)),
      if_neg (h kv (List.mem_cons_self kv rest))]
    rfl

theorem strFlagEntry_keys (argv : List String) (fl key : String)
    (l : List (String × String)) (h : strFlagEntry argv fl key = some l) :
    ∀ p ∈ l, p.1 = key := by
  unfold strFlagEntry at h
  cases hg : get_cli_flag argv fl with
  | none => rw [hg] at h; cases h; simp
  | some v =>
    rw [hg] at h
    cases v with
    | flag => cases h
    | value s => cases h; simp

theorem dry_run_entries_keys (argv : List String) :
    ∀ p ∈ dry_run_entries argv, p.1 = "DRY_RUN" := by
  unfold dry_run_entries
  cases get_cli_flag argv "--dry-run" with
  | none => simp
  | some v =>
    cases v with
    | flag => simp
    | value s =>
      by_cases hs : s = "" <;> simp [hs]

theorem lastVal_strFlagEntry_ne (argv : List String) (fl key k : String)
    (l : List (String × String)) (h : strFlagEntry argv fl key = some l)
    (hk : key ≠ k) : lastVal l k = none :=
  lastVal_of_keys_ne l k (fun p hp => by rw [strFlagEntry_keys argv fl key l h p hp]; exact hk)

theorem strFlagEntry_of_value (argv : List String) (fl key s : String)
    (h : get_cli_flag argv fl = some (.value s)) :
    strFlagEntry argv fl key = some [(key, s)] := by
  unfold strFlagEntry
  rw [h]

theorem envGet_resolved_of_lastVal (e1 : Env) (ov : List (String × String))
    (k s : String) (h : lastVal ov k = some s) :
    envGet (apply_cli_overrides e1 ov) k = some s := by
  rw [envGet_apply_cli, h, orO_some]

theorem lastVal_dry_run_ne (argv : List String) (k : String) (h : k ≠ "DRY_RUN") :
    lastVal (dry_run_entries argv) k = none :=
  lastVal_of_keys_ne _ _ (fun p hp => by
    rw [dry_run_entries_keys argv p hp]; exact fun hh => h hh.symm)

/-- C6: command-line precedence.  Whenever the environment-merge
pipeline succeeds, a configuration key supplied as `--flag=value` on the
command line ends up in the effective configuration with the
command-line value, regardless of what the override file or the
pre-existing environment bound it to; a bare `--dry-run` forces the
dry-run flag on. -/
theorem c6_cli_precedence (env0 : Env) (fileVals : List (String × String))
    (argv : List String) (e' : Env)
    (hres : resolve_env env0 fileVals argv = some e') :
    (∀ s, get_cli_flag argv "--csv" = some (.value s) →
        (gather_config e').csv_path = some s) ∧
    (∀ s, get_cli_flag argv "--pdf" = some (.value s) →
        (gather_config e').pdf_path = some s) ∧
    (∀ s, get_cli_flag argv "--caption" = some (.value s) →
        (gather_config e').caption = s) ∧
    (∀ s, get_cli_flag argv "--filename" = some (.value s) →
        (gather_config e').filename = some s) ∧
    (∀ s, get_cli_flag argv "--rate" = some (.value s) →
        (gather_config e').rate = s) ∧
    (∀ s, get_cli_flag argv "--template" = some (.value s) →
        (gather_config e').template = s) ∧
    (get_cli_flag argv "--dry-run" = some .flag →
        (gather_config e').dry_run = true) := by
  rcases hb : build_cli_overrides argv with _ | ov
  · rw [resolve_env, hb] at hres; cases hres
  rw [resolve_env, hb] at hres
  injection hres with he'
  rcases hA : strFlagEntry argv "--csv" "CSV_PATH" with _ | sa
  · simp [build_cli_overrides, hA] at hb
  rcases hB : strFlagEntry argv "--pdf" "PDF_PATH" with _ | sb
  · simp [build_cli_overrides, hA, hB] at hb
  rcases hC : strFlagEntry argv "--caption" "CAPTION" with _ | sc
  · simp [build_cli_overrides, hA, hB, hC] at hb
  rcases hD : strFlagEntry argv "--filename" "FILENAME" with _ | sd
  · simp [build_cli_overrides, hA, hB, hC, hD] at hb
  rcases hE : strFlagEntry argv "--rate" "RATE" with _ | sr
  · simp [build_cli_overrides, hA, hB, hC, hD, hE] at hb
  rcases hF : strFlagEntry argv "--template" "TEMPLATE" with _ | sf
  · simp [build_cli_overrides, hA, hB, hC, hD, hE, hF] at hb
  have hov : sa ++ (sb ++ (sc ++ (sd ++ (sr ++ (sf ++ dry_run_entries argv))))) = ov := by
    have := hb
    simp [build_cli_overrides, hA, hB, hC, hD, hE, hF] at this
    exact this
  subst hov
  subst he'
  have kA : ∀ k, "CSV_PATH" ≠ k → lastVal sa k = none :=
    fun k hk => lastVal_strFlagEntry_ne argv _ _ k sa hA hk
  have kB : ∀ k, "PDF_PATH" ≠ k → lastVal sb k = none :=
    fun k hk => lastVal_strFlagEntry_ne argv _ _ k sb hB hk
  have kC : ∀ k, "CAPTION" ≠ k → lastVal sc k = none :=
    fun k hk => lastVal_strFlagEntry_ne argv _ _ k sc hC hk
  have kD : ∀ k, "FILENAME" ≠ k → lastVal sd k = none :=
    fun k hk => lastVal_strFlagEntry_ne argv _ _ k sd hD hk
  have kE : ∀ k, "RATE" ≠ k → lastVal sr k = none :=
    fun k hk => lastVal_strFlagEntry_ne argv _ _ k sr hE hk
  have kF : ∀ k, "TEMPLATE" ≠ k → lastVal sf k = none :=
    fun k hk => lastVal_strFlagEntry_ne argv _ _ k sf hF hk
  refine ⟨?_, ?_, ?_, ?_, ?_, ?_, ?_⟩
  · intro s hs
    have hsome := strFlagEntry_of_value argv "--csv" "CSV_PATH" s hs
    have hsa : sa = [("CSV_PATH", s)] := by
      injection (hA.symm.trans hsome)
    subst hsa
    show envGet _ "CSV_PATH" = some s
    apply envGet_resolved_of_lastVal
    simp only [lastVal_append]
    rw [kB _ (by decide), kC _ (by decide), kD _ (by decide), kE _ (by decide),
      kF _ (by decide), lastVal_dry_run_ne argv _ (by decide)]
    simp [lastVal, orO]
  · intro s hs
    have hsome := strFlagEntry_of_value argv "--pdf" "PDF_PATH" s hs
    have hsb : sb = [("PDF_PATH", s)] := by
      injection (hB.symm.trans hsome)
    subst hsb
    show envGet _ "PDF_PATH" = some s
    apply envGet_resolved_of_lastVal
    simp only [lastVal_append]
    rw [kA _ (by decide), kC _ (by decide), kD _ (by decide), kE _ (by decide),
      kF _ (by decide), lastVal_dry_run_ne argv _ (by decide)]
    simp [lastVal, orO]
  · intro s hs
    have hsome := strFlagEntry_of_value argv "--caption" "CAPTION" s hs
    have hsc : sc = [("CAPTION", s)] := by
      injection (hC.symm.trans hsome)
    subst hsc
    show envGetD _ "CAPTION" "" = s
    rw [envGetD, envGet_resolved_of_lastVal]
    · rfl
    simp only [lastVal_append]
    rw [kA _ (by decide), kB _ (by decide), kD _ (by decide), kE _ (by decide),
      kF _ (by decide), lastVal_dry_run_ne argv _ (by decide)]
    simp [lastVal, orO]
  · intro s hs
    have hsome := strFlagEntry_of_value argv "--filename" "FILENAME" s hs
    have hsd : sd = [("FILENAME", s)] := by
      injection (hD.symm.trans hsome)
    subst hsd
    show envGet _ "FILENAME" = some s
    apply envGet_resolved_of_lastVal
    simp only [lastVal_append]
    rw [kA _ (by decide), kB _ (by decide), kC _ (by decide), kE _ (by decide),
      kF _ (by decide), lastVal_dry_run_ne argv _ (by decide)]
    simp [lastVal, orO]
  · intro s hs
    have hsome := strFlagEntry_of_value argv "--rate" "RATE" s hs
    have hsr : sr = [("RATE", s)] := by
      injection (hE.symm.trans hsome)
    subst hsr
    show envGetD _ "RATE" "0.5" = s
    rw [envGetD, envGet_resolved_of_lastVal]
    · rfl
    simp only [lastVal_append]
    rw [kA _ (by decide), kB _ (by decide), kC _ (by decide), kD _ (by decide),
      kF _ (by decide), lastVal_dry_run_ne argv _ (by decide)]
    simp [lastVal, orO]
  · intro s hs
    have hsome := strFlagEntry_of_value argv "--template" "TEMPLATE" s hs
    have hsf : sf = [("TEMPLATE", s)] := by
      injection (hF.symm.trans hsome)
    subst hsf
    show envGetD _ "TEMPLATE" "" = s
    rw [envGetD, envGet_resolved_of_lastVal]
    · rfl
    simp only [lastVal_append]
    rw [kA _ (by decide), kB _ (by decide), kC _ (by decide), kD _ (by decide),
      kE _ (by decide), lastVal_dry_run_ne argv _ (by decide)]
    simp [lastVal, orO]
  · intro hflag
    have hdry : dry_run_entries argv = [("DRY_RUN", "true")] := by
      rw [dry_run_entries, hflag]
    have hlast : lastVal (sa ++ (sb ++ (sc ++ (sd ++ (sr ++ (sf ++ dry_run_entries argv))))))
        "DRY_RUN" = some "true" := by
      simp only [lastVal_append]
      rw [kA _ (by decide), kB _ (by decide), kC _ (by decide), kD _ (by decide),
        kE _ (by decide), kF _ (by decide), hdry]
      simp [lastVal, orO]
    show ["1", "true", "yes"].contains (pyLower (envGetD _ "DRY_RUN" "false")) = true
    rw [envGetD, envGet_resolved_of_lastVal _ _ _ _ hlast]
    decide

/-- Witness for C6, on the scenario of the specification: the override
file sets `RATE=2`, the command line passes `--rate=0.1`, and the
effective delay setting is `0.1`. -/
theorem c6_cli_precedence_witness :
    resolve_env [] [("RATE", "2")] ["--rate=0.1"] = some [("RATE", "0.1")] ∧
    (gather_config [("RATE", "0.1")]).rate = "0.1" :=
  ⟨by decide,
   (c6_cli_precedence [] [("RATE", "2")] ["--rate=0.1"] [("RATE", "0.1")]
      (by decide)).2.2.2.2.1 "0.1" (by decide)⟩

/-! ## Template-reference validation (C7) -/

theorem splitFirst_spec (c : Char) :
    ∀ (l a b : List Char), splitFirst c l = some (a, b) →
      l = a ++ c :: b ∧ a.contains c = false := by
  intro l
  induction l with
  | nil => intro a b h; cases h
  | cons x xs ih =>
    intro a b h
    by_cases hx : x = c
    · rw [splitFirst, if_pos hx] at h
      injection h with h2
      injection h2 with ha hb
      subst ha; subst hb
      rw [hx]
      exact ⟨rfl, rfl⟩
    · rw [splitFirst, if_neg hx] at h
      rcases hs : splitFirst c xs with _ | p
      · rw [hs] at h; cases h
      · rw [hs, Option.map_some'] at h
        injection h with h2
        injection h2 with ha hb
        obtain ⟨hl, hc⟩ := ih p.1 p.2 (by rw [hs])
        subst ha; subst hb
        constructor
        · rw [List.cons_append, ← hl]
        · simp only [List.contains_cons, Bool.or_eq_false_iff]
          exact ⟨by simpa using Ne.symm hx, hc⟩

theorem splitFirst_of_contains (c : Char) :
    ∀ l : List Char, l.contains c = true → (splitFirst c l).isSome = true := by
  intro l
  induction l with
  | nil => intro h; cases h
  | cons x xs ih =>
    intro h
    by_cases hx : x = c
    · simp [splitFirst, hx]
    · rw [splitFirst, if_neg hx]
      have hxs : xs.contains c = true := by
        simp only [List.contains_cons, Bool.or_eq_true] at h
        rcases h with h1 | h2
        · exact absurd ((show c = x by simpa using h1).symm) hx
        · exact h2
      rcases hp : splitFirst c xs with _ | p
      · rw [hp] at ih; exact absurd (ih hxs) (by simp)
      · rfl

/-- C7: template-reference validation.  When a non-empty template
reference passes configuration validation it decomposes, at the single
delimiter found by the parse, into a colon-free name part and a language
part whose concatenation restores the reference; a non-empty reference
with no delimiter at all makes validation fail; and the well-formed
reference `promo:en_US` resolves to name `promo` and language `en_US`. -/
theorem c7_template_validation (pe ce : Bool) (c : Config) :
    (c.template ≠ "" → validate_configuration pe ce c = [] →
      ∃ n l, parse_template c.template = some (n, l) ∧
        n.toList.contains ':' = false ∧
        c.template.toList = n.toList ++ ':' :: l.toList) ∧
    (c.template ≠ "" → c.template.toList.contains ':' = false →
      validate_configuration pe ce c ≠ []) ∧
    parse_template "promo:en_US" = some ("promo", "en_US") := by
  refine ⟨?_, ?_, by decide⟩
  · intro ht hval
    have he8 : (if c.template != "" && !(c.template.toList.contains ':')
        then ["TEMPLATE must be in format name:lang"] else []) = [] :=
      (List.append_eq_nil.mp hval).2
    have hcond : (c.template != "" && !(c.template.toList.contains ':')) = false := by
      by_cases hc : (c.template != "" && !(c.template.toList.contains ':')) = true
      · rw [if_pos hc] at he8; cases he8
      · exact Bool.eq_false_iff.mpr hc
    have hbne : (c.template != "") = true := bne_iff_ne.mpr ht
    have hcontains : c.template.toList.contains ':' = true := by
      rw [hbne, Bool.true_and] at hcond
      simpa using hcond
    rcases hp : splitFirst ':' c.template.toList with _ | p
    · exact absurd (splitFirst_of_contains ':' _ hcontains) (by rw [hp]; simp)
    · obtain ⟨hl, hc⟩ := splitFirst_spec ':' _ p.1 p.2 hp
      refine ⟨p.1.asString, p.2.asString, ?_, hc, hl⟩
      rw [parse_template, hp, Option.map_some']
  · intro ht hc
    have hbne : (c.template != "") = true := bne_iff_ne.mpr ht
    have hcond : (c.template != "" && !(c.template.toList.contains ':')) = true := by
      rw [hbne, hc]
      rfl
    apply List.ne_nil_of_mem (a := "TEMPLATE must be in format name:lang")
    unfold validate_configuration
    apply List.mem_append.mpr
    right
    rw [if_pos hcond]
    exact List.mem_singleton.mpr rfl

/-- Witness for C7: a configuration that is valid except for its
template reference `promo` (no delimiter) fails validation; the same
configuration with `promo:en_US` passes, and the reference resolves to
name `promo` and language `en_US`. -/
theorem c7_template_validation_witness :
    validate_configuration true true
        ⟨some "123", some "tok", "v20.0", some "n.csv", some "d.pdf", "", none,
          "0.5", "promo", false⟩ ≠ [] ∧
    validate_configuration true true
        ⟨some "123", some "tok", "v20.0", some "n.csv", some "d.pdf", "", none,
          "0.5", "promo:en_US", false⟩ = [] ∧
    parse_template "promo:en_US" = some ("promo", "en_US") :=
  ⟨(c7_template_validation true true
      ⟨some "123", some "tok", "v20.0", some "n.csv", some "d.pdf", "", none,
        "0.5", "promo", false⟩).2.1 (by decide) (by decide),
   by decide,
   (c7_template_validation true true
      ⟨some "123", some "tok", "v20.0", some "n.csv", some "d.pdf", "", none,
        "0.5", "promo", false⟩).2.2⟩

/-! ## Delivery client (C2) -/

/-- A provider response to the media-upload call: HTTP status and the
`id` field of the parsed JSON body (`none` when absent). -/
structure UploadResponse where
  status : Nat
  id : Option String
deriving DecidableEq, Repr

/-- A provider response to a message-send call: HTTP status and, for
each entry of the body's `messages` array, its `id` field. -/
structure MessagesResponse where
  status : Nat
  messages : Option (List (Option String))
deriving DecidableEq, Repr

/-- `upload_media` (source lines 363-427) as a function of the provider
response: a status `>= 300` raises `RuntimeError`; a missing or falsy
(empty) `id` in the parsed body raises `RuntimeError`; otherwise the
media id is returned. -/
def upload_media (r : UploadResponse) : Except String String :=
  if 300 ≤ r.status then .error ("Upload failed: " ++ toString r.status)
  else
    match r.id with
    | Option.none => .error "Upload response missing media id"
    | some s =>
      if s = "" then .error "Upload response missing media id" else .ok s

/-- `post_json_messages` (source lines 430-477): a status `>= 300`
raises `RuntimeError`; otherwise the parsed body (its `messages` field)
is returned unexamined. -/
def post_json_messages (r : MessagesResponse) :
    Except String (Option (List (Option String))) :=
  if 300 ≤ r.status then .error ("Send failed: " ++ toString r.status)
  else .ok r.messages

/-- `(data.get("messages") or [{}])[0].get("id", "unknown")` (source
lines 514 and 560): the first message id, or `"unknown"` when the body
has no usable `messages` entry. -/
def extract_message_id (messages : Option (List (Option String))) : String :=
  match messages with
  | Option.none => "unknown"
  | some [] => "unknown"
  | some (Option.none :: _) => "unknown"
  | some (some i :: _) => i

/-- `send_template` (source lines 480-520) as a function of the provider
response. -/
def send_template (r : MessagesResponse) : Except String String :=
  (post_json_messages r).map extract_message_id

/-- `send_document_by_id` (source lines 523-566) as a function of the
provider response. -/
def send_document_by_id (r : MessagesResponse) : Except String String :=
  (post_json_messages r).map extract_message_id

/-- Counterexample to C2: a send response with status 200 whose parsed
body contains no message id does not raise — both send operations return
the placeholder value `"unknown"` instead of an error. -/
theorem c2_send_missing_id_counterexample :
    send_template { status := 200, messages := Option.none } = Except.ok "unknown" ∧
    send_document_by_id { status := 200, messages := Option.none } = Except.ok "unknown" :=
  ⟨rfl, rfl⟩

/-- C2 as amended: every operation raises on a status `>= 300`; the
upload additionally raises when a status `< 300` response carries no (or
an empty) media id; the two send operations never raise on a status
`< 300` — they return the extracted message id, which is `"unknown"`
when the body lacks one. -/
theorem c2_delivery_failure_policy_amended :
    (∀ r : UploadResponse, 300 ≤ r.status → ∃ e, upload_media r = .error e) ∧
    (∀ r : UploadResponse, r.status < 300 → (r.id = Option.none ∨ r.id = some "") →
      ∃ e, upload_media r = .error e) ∧
    (∀ r : UploadResponse, r.status < 300 → ∀ s, r.id = some s → s ≠ "" →
      upload_media r = .ok s) ∧
    (∀ r : MessagesResponse, 300 ≤ r.status →
      ∃ e, send_template r = .error e ∧ send_document_by_id r = .error e) ∧
    (∀ r : MessagesResponse, r.status < 300 →
      send_template r = .ok (extract_message_id r.messages) ∧
      send_document_by_id r = .ok (extract_message_id r.messages)) := by
  refine ⟨?_, ?_, ?_, ?_, ?_⟩
  · intro r h
    exact ⟨_, by rw [upload_media, if_pos h]⟩
  · intro r h hid
    refine ⟨"Upload response missing media id", ?_⟩
    rw [upload_media, if_neg (Nat.not_le.mpr h)]
    rcases hid with hid | hid
    · rw [hid]
    · rw [hid]; rfl
  · intro r h s hs hne
    rw [upload_media, if_neg (Nat.not_le.mpr h), hs]
    show (if s = "" then Except.error "Upload response missing media id"
        else Except.ok s) = Except.ok s
    rw [if_neg hne]
  · intro r h
    refine ⟨"Send failed: " ++ toString r.status, ?_, ?_⟩ <;>
      · show (post_json_messages r).map extract_message_id = _
        rw [post_json_messages, if_pos h]
        rfl
  · intro r h
    constructor <;>
      · show (post_json_messages r).map extract_message_id = _
        rw [post_json_messages, if_neg (Nat.not_le.mpr h)]
        rfl

/-- Witness for the amended C2 at concrete responses: an upload rejected
at status 401, an upload rejected for a missing id at status 200, an
upload accepted with media id `mid99`, sends rejected at status 500, and
sends accepted at status 200 returning the first message id. -/
theorem c2_delivery_failure_policy_amended_witness :
    (∃ e, upload_media ⟨401, some "X"⟩ = .error e) ∧
    (∃ e, upload_media ⟨200, Option.none⟩ = .error e) ∧
    upload_media ⟨200, some "mid99"⟩ = .ok "mid99" ∧
    (∃ e, send_template ⟨500, some [some "m1"]⟩ = .error e ∧
      send_document_by_id ⟨500, some [some "m1"]⟩ = .error e) ∧
    send_template ⟨200, some [some "wamid.1"]⟩ = .ok "wamid.1" :=
  ⟨c2_delivery_failure_policy_amended.1 ⟨401, some "X"⟩ (by decide),
   c2_delivery_failure_policy_amended.2.1 ⟨200, Option.none⟩ (by decide) (Or.inl rfl),
   c2_delivery_failure_policy_amended.2.2.1 ⟨200, some "mid99"⟩ (by decide) "mid99" rfl
     (by decide),
   c2_delivery_failure_policy_amended.2.2.2.1 ⟨500, some [some "m1"]⟩ (by decide),
   (c2_delivery_failure_policy_amended.2.2.2.2 ⟨200, some [some "wamid.1"]⟩
     (by decide)).1⟩

/-! ## The broadcast loop and the run model (C1, C5, C8, C9, C10) -/

/-- The outcome the remote side hands one send or upload attempt: the
returned reference id, or the message of the raised exception. -/
inductive SendResult
  | ok (id : String)
  | exn (msg : String)
deriving DecidableEq, Repr

def SendResult.isExn : SendResult → Bool
  | .ok _ => false
  | .exn _ => true

/-- One row of the `failed_numbers` bookkeeping list (source lines
850-854). -/
structure FailedEntry where
  phone_number : String
  error_message : String
  timestamp : String
deriving DecidableEq, Repr

/-- A network request issued by the program. -/
inductive NetEvent
  | uploadEv
  | templateEv (to_num : String)
  | documentEv (to_num : String)
deriving DecidableEq, Repr

/-- Everything outside the program: the parsed CSV rows (or the raised
read error), the two file-existence checks, the upload outcome, the
per-recipient outcomes of the template and document sends, the clock,
and the iteration at whose start a `KeyboardInterrupt` arrives (if
any). -/
structure World where
  csvRows : Except Unit (List (List String))
  pdf_exists : Bool
  csv_exists : Bool
  upload : SendResult
  tmplRes : Nat → SendResult
  docRes : Nat → SendResult
  now : Nat → String
  interruptAt : Option Nat

/-- The mutable state of the broadcast loop (source lines 801-859),
together with the trace of network events issued and the media ids
referenced by the attempted document sends (and logged by dry-run
iterations). -/
structure LoopState where
  success_count : Nat
  failure_count : Nat
  failed_numbers : List FailedEntry
  attempted : List String
  events : List NetEvent
  used_media : List String
deriving DecidableEq, Repr

def initLoopState : LoopState := ⟨0, 0, [], [], [], []⟩

/-- The document-send half of one loop iteration (source lines 830-840):
the request is issued; an exception is recorded as this recipient's
failure, a returned id as its success. -/
def doc_step (w : World) (media : String) (i : Nat) (p : String)
    (evs : List NetEvent) (st : LoopState) : LoopState :=
  match w.docRes i with
  | .exn m =>
    { st with
        failure_count := st.failure_count + 1
        failed_numbers := st.failed_numbers ++ [⟨p, m, w.now i⟩]
        attempted := st.attempted ++ [p]
        events := st.events ++ evs ++ [.documentEv p]
        used_media := st.used_media ++ [media] }
  | .ok _ =>
    { st with
        success_count := st.success_count + 1
        attempted := st.attempted ++ [p]
        events := st.events ++ evs ++ [.documentEv p]
        used_media := st.used_media ++ [media] }

/-- One iteration of the broadcast loop (source lines 805-854): under
dry-run only logging happens and the iteration counts as a success;
otherwise the template message is sent first when configured (its
exception ends the iteration as a failure, skipping the document send),
then the document message referencing the shared media id. -/
def process_recipient (dry : Bool) (tpl : Option (String × String)) (w : World)
    (media : String) (i : Nat) (p : String) (st : LoopState) : LoopState :=
  if dry then
    { st with
        success_count := st.success_count + 1
        attempted := st.attempted ++ [p]
        used_media := st.used_media ++ [media] }
  else
    match tpl with
    | some _ =>
      match w.tmplRes i with
      | .exn m =>
        { st with
            failure_count := st.failure_count + 1
            failed_numbers := st.failed_numbers ++ [⟨p, m, w.now i⟩]
            attempted := st.attempted ++ [p]
            events := st.events ++ [.templateEv p] }
      | .ok _ => doc_step w media i p [.templateEv p] st
    | Option.none => doc_step w media i p [] st

/-- The broadcast loop from iteration `i` on: a `KeyboardInterrupt`
arriving at the start of an iteration (or during the preceding pacing
sleep) stops the loop, flagged in the second component. -/
def broadcast_loop_aux (dry : Bool) (tpl : Option (String × String)) (w : World)
    (media : String) : Nat → List String → LoopState → LoopState × Bool
  | _, [], st => (st, false)
  | i, p :: rest, st =>
    if w.interruptAt = some i then (st, true)
    else broadcast_loop_aux dry tpl w media (i + 1) rest
      (process_recipient dry tpl w media i p st)

/-- The whole broadcast loop (source lines 801-859). -/
def broadcast_loop (dry : Bool) (tpl : Option (String × String)) (w : World)
    (media : String) (numbers : List String) : LoopState × Bool :=
  broadcast_loop_aux dry tpl w media 0 numbers initLoopState

/-- `write_failed_numbers_to_csv` (source lines 315-357), as the content
written to the export artifact: nothing when the list is empty,
otherwise the header row followed by one row per failed recipient. -/
def write_failed_numbers_to_csv (failed : List FailedEntry) :
    Option (List (List String)) :=
  if failed = [] then Option.none
  else
    some (["phone_number", "error_message", "timestamp"]
      :: failed.map (fun en => [en.phone_number, en.error_message, en.timestamp]))

/-- The terminal state of a run: a fatal abort (`fail(...)` or the outer
exception handler, exit code 1), a user interrupt (exit code 130), or a
completed broadcast (exit code decided by the failure count).  Each
carries the network events issued; a completed run also carries the
export-artifact content (`none` when no file is written). -/
inductive RunOutcome
  | fatal (events : List NetEvent)
  | interrupted (st : LoopState) (events : List NetEvent)
  | completed (st : LoopState) (events : List NetEvent)
      (export? : Option (List (List String)))
deriving DecidableEq, Repr

/-- `sys.exit` codes (source lines 201-212, 739, 770, 892-905). -/
def RunOutcome.exitCode : RunOutcome → Nat
  | .fatal _ => 1
  | .interrupted _ _ => 130
  | .completed st _ _ => if 0 < st.failure_count then 1 else 0

def RunOutcome.eventsOf : RunOutcome → List NetEvent
  | .fatal ev => ev
  | .interrupted _ ev => ev
  | .completed _ ev _ => ev

def RunOutcome.exportOf : RunOutcome → Option (List (List String))
  | .fatal _ => Option.none
  | .interrupted _ _ => Option.none
  | .completed _ _ ex => ex

def RunOutcome.usedMediaOf : RunOutcome → List String
  | .fatal _ => []
  | .interrupted st _ => st.used_media
  | .completed st _ _ => st.used_media

/-- Loop, summary, export and exit (source lines 801-905), entered with
the media id in hand. -/
def finish_run (w : World) (cfg : Config) (tpl : Option (String × String))
    (numbers : List String) (media : String) (upEvents : List NetEvent) :
    RunOutcome :=
  if (broadcast_loop cfg.dry_run tpl w media numbers).2 then
    .interrupted (broadcast_loop cfg.dry_run tpl w media numbers).1
      (upEvents ++ (broadcast_loop cfg.dry_run tpl w media numbers).1.events)
  else
    .completed (broadcast_loop cfg.dry_run tpl w media numbers).1
      (upEvents ++ (broadcast_loop cfg.dry_run tpl w media numbers).1.events)
      (if 0 < (broadcast_loop cfg.dry_run tpl w media numbers).1.failure_count
          ∧ cfg.dry_run = false then
        write_failed_numbers_to_csv
          (broadcast_loop cfg.dry_run tpl w media numbers).1.failed_numbers
      else Option.none)

/-- Phase 1, the media upload (source lines 774-794): a dry run
synthesizes `DRY_RUN_MEDIA_ID` and issues no request; otherwise the
upload is issued once and its exception is fatal. -/
def run_broadcast (w : World) (cfg : Config) (tpl : Option (String × String))
    (numbers : List String) : RunOutcome :=
  if cfg.dry_run then finish_run w cfg tpl numbers "DRY_RUN_MEDIA_ID" []
  else
    match w.upload with
    | .exn _ => .fatal [.uploadEv]
    | .ok mid => finish_run w cfg tpl numbers mid [.uploadEv]

/-- `main` after the configuration dictionary is gathered (source lines
734-905): validation, template parse, CSV read, empty-recipients check,
upload, loop, export, exit. -/
def run_after_config (w : World) (cfg : Config) : RunOutcome :=
  if validate_configuration w.pdf_exists w.csv_exists cfg ≠ [] then .fatal []
  else
    match template_step cfg.template with
    | .error _ => .fatal []
    | .ok tpl =>
      match w.csvRows with
      | .error _ => .fatal []
      | .ok rows =>
        if read_numbers_from_csv rows = [] then .fatal []
        else run_broadcast w cfg tpl (read_numbers_from_csv rows)

/-- The whole of `main` (source lines 655-905) given the pre-existing
environment, the parsed override file and the argument vector: resolve
the environment (a crash while applying CLI overrides is fatal), gather
the configuration, and run. -/
def run_main (w : World) (env0 : Env) (fileVals : List (String × String))
    (argv : List String) : RunOutcome :=
  match resolve_env env0 fileVals argv with
  | Option.none => .fatal []
  | some env => run_after_config w (gather_config env)

/-! ## Loop lemmas -/

theorem process_recipient_counts (dry : Bool) (tpl : Option (String × String))
    (w : World) (media : String) (i : Nat) (p : String) (st : LoopState) :
    (process_recipient dry tpl w media i p st).success_count
        + (process_recipient dry tpl w media i p st).failure_count
      = st.success_count + st.failure_count + 1 ∧
    (process_recipient dry tpl w media i p st).failed_numbers.length
        + st.failure_count
      = st.failed_numbers.length
        + (process_recipient dry tpl w media i p st).failure_count ∧
    (process_recipient dry tpl w media i p st).attempted
      = st.attempted ++ [p] := by
  cases dry with
  | true => simp [process_recipient]; omega
  | false =>
    cases tpl with
    | none =>
      cases hdoc : w.docRes i <;> simp [process_recipient, doc_step, hdoc] <;> omega
    | some t =>
      cases htm : w.tmplRes i with
      | exn m => simp [process_recipient, htm]; omega
      | ok j =>
        cases hdoc : w.docRes i <;>
          simp [process_recipient, doc_step, htm, hdoc] <;> omega

theorem broadcast_loop_aux_inv (dry : Bool) (tpl : Option (String × String))
    (w : World) (media : String) :
    ∀ (nums : List String) (i : Nat) (st : LoopState),
      st.success_count + st.failure_count = st.attempted.length →
      st.failed_numbers.length = st.failure_count →
      ((broadcast_loop_aux dry tpl w media i nums st).1.success_count
          + (broadcast_loop_aux dry tpl w media i nums st).1.failure_count
        = (broadcast_loop_aux dry tpl w media i nums st).1.attempted.length ∧
       (broadcast_loop_aux dry tpl w media i nums st).1.failed_numbers.length
        = (broadcast_loop_aux dry tpl w media i nums st).1.failure_count) := by
  intro nums
  induction nums with
  | nil => intro i st h1 h2; exact ⟨h1, h2⟩
  | cons p rest ih =>
    intro i st h1 h2
    rw [broadcast_loop_aux]
    by_cases hint : w.interruptAt = some i
    · rw [if_pos hint]
      exact ⟨h1, h2⟩
    · rw [if_neg hint]
      obtain ⟨c1, c2, c3⟩ := process_recipient_counts dry tpl w media i p st
      apply ih (i + 1)
      · rw [c1, c3, List.length_append, h1]
        rfl
      · omega

theorem broadcast_loop_aux_attempted (dry : Bool) (tpl : Option (String × String))
    (w : World) (media : String) (hno : w.interruptAt = none) :
    ∀ (nums : List String) (i : Nat) (st : LoopState),
      (broadcast_loop_aux dry tpl w media i nums st).1.attempted
          = st.attempted ++ nums ∧
      (broadcast_loop_aux dry tpl w media i nums st).2 = false := by
  intro nums
  induction nums with
  | nil => intro i st; exact ⟨(List.append_nil _).symm, rfl⟩
  | cons p rest ih =>
    intro i st
    rw [broadcast_loop_aux, if_neg (by rw [hno]; exact fun h => Option.noConfusion h)]
    obtain ⟨c1, c2⟩ := ih (i + 1) (process_recipient dry tpl w media i p st)
    refine ⟨?_, c2⟩
    rw [c1, (process_recipient_counts dry tpl w media i p st).2.2,
      List.append_assoc]
    rfl

theorem broadcast_loop_aux_dry (tpl : Option (String × String)) (w : World)
    (media : String) :
    ∀ (nums : List String) (i : Nat) (st : LoopState),
      (broadcast_loop_aux true tpl w media i nums st).1.events = st.events ∧
      (broadcast_loop_aux true tpl w media i nums st).1.failure_count
          = st.failure_count ∧
      (∀ m ∈ (broadcast_loop_aux true tpl w media i nums st).1.used_media,
        m ∈ st.used_media ∨ m = media) := by
  intro nums
  induction nums with
  | nil =>
    intro i st
    exact ⟨rfl, rfl, fun m hm => Or.inl hm⟩
  | cons p rest ih =>
    intro i st
    rw [broadcast_loop_aux]
    by_cases hint : w.interruptAt = some i
    · rw [if_pos hint]
      exact ⟨rfl, rfl, fun m hm => Or.inl hm⟩
    · rw [if_neg hint]
      obtain ⟨c1, c2, c3⟩ := ih (i + 1) (process_recipient true tpl w media i p st)
      refine ⟨by rw [c1]; rfl, by rw [c2]; rfl, ?_⟩
      intro m hm
      rcases c3 m hm with hmem | heq
      · have hmem' : m ∈ st.used_media ++ [media] := by
          simpa [process_recipient] using hmem
        rcases List.mem_append.mp hmem' with h1 | h2
        · exact Or.inl h1
        · exact Or.inr (List.mem_singleton.mp h2)
      · exact Or.inr heq

/-! ## Failure accounting for a real (non-dry) run -/

/-- The recipients of a list paired with their loop indices, starting
at `i`. -/
def enumFromN : Nat → List String → List (Nat × String)
  | _, [] => []
  | i, p :: rest => (i, p) :: enumFromN (i + 1) rest

/-- Whether the enclosing `try` of iteration `i` catches an exception:
the template send raises (when a template is configured), or — the
template send having succeeded or not been attempted — the document send
raises. -/
def recipient_fails (tplB : Bool) (w : World) (i : Nat) : Bool :=
  (tplB && (w.tmplRes i).isExn) || (w.docRes i).isExn

def SendResult.msgOf : SendResult → String
  | .ok _ => ""
  | .exn m => m

/-- The `failed_numbers` entry iteration `i` appends, when it fails. -/
def recipient_fail_entry (tplB : Bool) (w : World) (i : Nat) (p : String) :
    Option FailedEntry :=
  if tplB && (w.tmplRes i).isExn then
    some ⟨p, (w.tmplRes i).msgOf, w.now i⟩
  else
    match w.docRes i with
    | .exn m => some ⟨p, m, w.now i⟩
    | .ok _ => none

theorem recipient_fail_entry_isSome (tplB : Bool) (w : World) (i : Nat) (p : String) :
    (recipient_fail_entry tplB w i p).isSome = recipient_fails tplB w i := by
  rw [recipient_fail_entry, recipient_fails]
  by_cases ht : (tplB && (w.tmplRes i).isExn) = true
  · rw [if_pos ht, ht]
    rfl
  · rw [if_neg ht, Bool.eq_false_iff.mpr ht, Bool.false_or]
    cases hdoc : w.docRes i <;> simp [SendResult.isExn]

theorem process_recipient_failed (tpl : Option (String × String)) (w : World)
    (media : String) (i : Nat) (p : String) (st : LoopState) :
    (process_recipient false tpl w media i p st).failed_numbers
      = st.failed_numbers ++ (recipient_fail_entry tpl.isSome w i p).toList := by
  cases tpl with
  | none =>
    cases hdoc : w.docRes i <;>
      simp [process_recipient, doc_step, recipient_fail_entry, hdoc]
  | some t =>
    cases htm : w.tmplRes i with
    | exn m =>
      simp [process_recipient, recipient_fail_entry, htm, SendResult.isExn,
        SendResult.msgOf]
    | ok j =>
      cases hdoc : w.docRes i <;>
        simp [process_recipient, doc_step, recipient_fail_entry, htm, hdoc,
          SendResult.isExn]

theorem broadcast_loop_aux_failed (tpl : Option (String × String)) (w : World)
    (media : String) (hno : w.interruptAt = none) :
    ∀ (nums : List String) (i : Nat) (st : LoopState),
      (broadcast_loop_aux false tpl w media i nums st).1.failed_numbers
        = st.failed_numbers
          ++ (enumFromN i nums).filterMap
              (fun ip => recipient_fail_entry tpl.isSome w ip.1 ip.2) := by
  intro nums
  induction nums with
  | nil => intro i st; simp [broadcast_loop_aux, enumFromN]
  | cons p rest ih =>
    intro i st
    rw [broadcast_loop_aux, if_neg (by rw [hno]; exact fun h => Option.noConfusion h)]
    rw [ih (i + 1) _, process_recipient_failed, enumFromN, List.filterMap_cons]
    cases he : recipient_fail_entry tpl.isSome w i p with
    | none => simp [List.append_assoc]
    | some en => simp [List.append_assoc]

theorem length_filterMap_eq_length_filter {α β : Type} (f : α → Option β) :
    ∀ l : List α, (l.filterMap f).length = (l.filter (fun x => (f x).isSome)).length := by
  intro l
  induction l with
  | nil => rfl
  | cons x xs ih =>
    rw [List.filterMap_cons, List.filter_cons]
    cases hx : f x with
    | none => simp [hx, ih]
    | some b => simp [hx, ih]

/-- C1: partial-failure tolerance of the broadcast loop.  On a real
(non-dry, uninterrupted) run every loaded recipient is attempted, no
matter which earlier sends raised; the failed-numbers list is exactly
one entry per raising recipient, in order; the failure count equals the
number of raising recipients; and whenever there is at least one failure
the export artifact holds the header row plus exactly one row per failed
recipient. -/
theorem c1_broadcast_failure_tolerance (tpl : Option (String × String)) (w : World)
    (media : String) (numbers : List String) (hno : w.interruptAt = none) :
    (broadcast_loop false tpl w media numbers).1.attempted = numbers ∧
    (broadcast_loop false tpl w media numbers).1.failed_numbers
      = (enumFromN 0 numbers).filterMap
          (fun ip => recipient_fail_entry tpl.isSome w ip.1 ip.2) ∧
    (broadcast_loop false tpl w media numbers).1.failure_count
      = ((enumFromN 0 numbers).filter
          (fun ip => recipient_fails tpl.isSome w ip.1)).length ∧
    (broadcast_loop false tpl w media numbers).1.failed_numbers.length
      = (broadcast_loop false tpl w media numbers).1.failure_count ∧
    ((broadcast_loop false tpl w media numbers).1.failed_numbers ≠ [] →
      write_failed_numbers_to_csv (broadcast_loop false tpl w media numbers).1.failed_numbers
        = some (["phone_number", "error_message", "timestamp"]
            :: (broadcast_loop false tpl w media numbers).1.failed_numbers.map
                (fun en => [en.phone_number, en.error_message, en.timestamp]))) := by
  have hatt := (broadcast_loop_aux_attempted false tpl w media hno numbers 0
    initLoopState).1
  have hfail := broadcast_loop_aux_failed tpl w media hno numbers 0 initLoopState
  have hinv := broadcast_loop_aux_inv false tpl w media numbers 0 initLoopState
    rfl rfl
  rw [broadcast_loop] at *
  refine ⟨by simpa [initLoopState] using hatt, by simpa [initLoopState] using hfail,
    ?_, hinv.2, ?_⟩
  · rw [← hinv.2, show (broadcast_loop_aux false tpl w media 0 numbers
        initLoopState).1.failed_numbers = _ from by simpa [initLoopState] using hfail]
    rw [length_filterMap_eq_length_filter]
    congr 1
    apply List.filter_congr
    intro ip _
    exact recipient_fail_entry_isSome tpl.isSome w ip.1 ip.2
  · intro hne
    rw [write_failed_numbers_to_csv, if_neg hne]

/-- Witness for C1: three recipients, the middle one's document send
raises `boom`; all three are attempted, the counts and the export rows
match. -/
theorem c1_broadcast_failure_tolerance_witness :
    (broadcast_loop false Option.none
        ⟨.ok [], true, true, .ok "M",
          fun _ => .ok "t",
          fun i => if i = 1 then .exn "boom" else .ok "d",
          fun _ => "ts", Option.none⟩
        "M" ["11111111", "22222222", "33333333"]).1.attempted
      = ["11111111", "22222222", "33333333"] ∧
    (broadcast_loop false Option.none
        ⟨.ok [], true, true, .ok "M",
          fun _ => .ok "t",
          fun i => if i = 1 then .exn "boom" else .ok "d",
          fun _ => "ts", Option.none⟩
        "M" ["11111111", "22222222", "33333333"]).1.failure_count
      = ((enumFromN 0 ["11111111", "22222222", "33333333"]).filter
          (fun ip => recipient_fails false
            ⟨.ok [], true, true, .ok "M",
              fun _ => .ok "t",
              fun i => if i = 1 then .exn "boom" else .ok "d",
              fun _ => "ts", Option.none⟩ ip.1)).length :=
  ⟨(c1_broadcast_failure_tolerance Option.none
      ⟨.ok [], true, true, .ok "M", fun _ => .ok "t",
        fun i => if i = 1 then .exn "boom" else .ok "d",
        fun _ => "ts", Option.none⟩
      "M" ["11111111", "22222222", "33333333"] rfl).1,
   (c1_broadcast_failure_tolerance Option.none
      ⟨.ok [], true, true, .ok "M", fun _ => .ok "t",
        fun i => if i = 1 then .exn "boom" else .ok "d",
        fun _ => "ts", Option.none⟩
      "M" ["11111111", "22222222", "33333333"] rfl).2.2.1⟩

/-! ## Dry-run law (C5) -/

theorem run_broadcast_dry (w : World) (cfg : Config)
    (tpl : Option (String × String)) (numbers : List String)
    (hdry : cfg.dry_run = true) :
    (run_broadcast w cfg tpl numbers).eventsOf = [] ∧
    (run_broadcast w cfg tpl numbers).exportOf = Option.none ∧
    (∀ m ∈ (run_broadcast w cfg tpl numbers).usedMediaOf,
      m = "DRY_RUN_MEDIA_ID") := by
  unfold run_broadcast
  rw [hdry, if_pos rfl]
  unfold finish_run
  rw [hdry]
  obtain ⟨e1, f1, u1⟩ := broadcast_loop_aux_dry tpl w "DRY_RUN_MEDIA_ID"
    numbers 0 initLoopState
  rw [← broadcast_loop] at e1 f1 u1
  by_cases hint : (broadcast_loop true tpl w "DRY_RUN_MEDIA_ID" numbers).2 = true
  · rw [if_pos hint]
    refine ⟨?_, rfl, ?_⟩
    · show [] ++ _ = []
      rw [e1]
      rfl
    · intro m hm
      rcases u1 m hm with h1 | h2
      · exact absurd h1 (List.not_mem_nil m)
      · exact h2
  · rw [if_neg hint]
    refine ⟨?_, ?_, ?_⟩
    · show [] ++ _ = []
      rw [e1]
      rfl
    · show (if _ ∧ true = false then _ else Option.none) = Option.none
      rw [if_neg (fun hh => Bool.true_eq_false ▸ hh.2)]
    · intro m hm
      rcases u1 m hm with h1 | h2
      · exact absurd h1 (List.not_mem_nil m)
      · exact h2

/-- C5: dry-run law.  Whenever the effective configuration of a run has
the dry-run flag set, the run issues no network event at all (neither
upload nor sends), never writes the failure-export artifact, and every
media id referenced by a simulated send is the synthesized placeholder
`DRY_RUN_MEDIA_ID`. -/
theorem c5_dry_run_law (w : World) (env0 : Env)
    (fileVals : List (String × String)) (argv : List String) (env : Env)
    (hres : resolve_env env0 fileVals argv = some env)
    (hdry : (gather_config env).dry_run = true) :
    (run_main w env0 fileVals argv).eventsOf = [] ∧
    (run_main w env0 fileVals argv).exportOf = Option.none ∧
    (∀ m ∈ (run_main w env0 fileVals argv).usedMediaOf, m = "DRY_RUN_MEDIA_ID") := by
  have hmain : run_main w env0 fileVals argv
      = run_after_config w (gather_config env) := by
    rw [run_main, hres]
  rw [hmain]
  unfold run_after_config
  split
  · exact ⟨rfl, rfl, fun m hm => absurd hm (List.not_mem_nil m)⟩
  split
  · exact ⟨rfl, rfl, fun m hm => absurd hm (List.not_mem_nil m)⟩
  split
  · exact ⟨rfl, rfl, fun m hm => absurd hm (List.not_mem_nil m)⟩
  split
  · exact ⟨rfl, rfl, fun m hm => absurd hm (List.not_mem_nil m)⟩
  exact run_broadcast_dry w (gather_config env) _ _ hdry

/-- Witness for C5: a dry run over two recipients with a template
configured; no events, no export, only the placeholder media id. -/
theorem c5_dry_run_law_witness :
    resolve_env [("WA_PHONE_NUMBER_ID", "123"), ("WA_ACCESS_TOKEN", "tok"),
        ("CSV_PATH", "n.csv"), ("PDF_PATH", "d.pdf"), ("DRY_RUN", "true"),
        ("TEMPLATE", "promo:en_US")] [] []
      = some [("WA_PHONE_NUMBER_ID", "123"), ("WA_ACCESS_TOKEN", "tok"),
        ("CSV_PATH", "n.csv"), ("PDF_PATH", "d.pdf"), ("DRY_RUN", "true"),
        ("TEMPLATE", "promo:en_US")] ∧
    (gather_config [("WA_PHONE_NUMBER_ID", "123"), ("WA_ACCESS_TOKEN", "tok"),
        ("CSV_PATH", "n.csv"), ("PDF_PATH", "d.pdf"), ("DRY_RUN", "true"),
        ("TEMPLATE", "promo:en_US")]).dry_run = true ∧
    ((run_main
        ⟨.ok [["11111111"], ["22222222"]], true, true, .exn "offline",
          fun _ => .exn "offline", fun _ => .exn "offline", fun _ => "ts",
          Option.none⟩
        [("WA_PHONE_NUMBER_ID", "123"), ("WA_ACCESS_TOKEN", "tok"),
          ("CSV_PATH", "n.csv"), ("PDF_PATH", "d.pdf"), ("DRY_RUN", "true"),
          ("TEMPLATE", "promo:en_US")] [] []).eventsOf = [] ∧
      (run_main
        ⟨.ok [["11111111"], ["22222222"]], true, true, .exn "offline",
          fun _ => .exn "offline", fun _ => .exn "offline", fun _ => "ts",
          Option.none⟩
        [("WA_PHONE_NUMBER_ID", "123"), ("WA_ACCESS_TOKEN", "tok"),
          ("CSV_PATH", "n.csv"), ("PDF_PATH", "d.pdf"), ("DRY_RUN", "true"),
          ("TEMPLATE", "promo:en_US")] [] []).exportOf = Option.none) :=
  ⟨by decide, by decide,
   ⟨(c5_dry_run_law
      ⟨.ok [["11111111"], ["22222222"]], true, true, .exn "offline",
        fun _ => .exn "offline", fun _ => .exn "offline", fun _ => "ts",
        Option.none⟩
      [("WA_PHONE_NUMBER_ID", "123"), ("WA_ACCESS_TOKEN", "tok"),
        ("CSV_PATH", "n.csv"), ("PDF_PATH", "d.pdf"), ("DRY_RUN", "true"),
        ("TEMPLATE", "promo:en_US")] [] []
      [("WA_PHONE_NUMBER_ID", "123"), ("WA_ACCESS_TOKEN", "tok"),
        ("CSV_PATH", "n.csv"), ("PDF_PATH", "d.pdf"), ("DRY_RUN", "true"),
        ("TEMPLATE", "promo:en_US")]
      (by decide) (by decide)).1,
    (c5_dry_run_law
      ⟨.ok [["11111111"], ["22222222"]], true, true, .exn "offline",
        fun _ => .exn "offline", fun _ => .exn "offline", fun _ => "ts",
        Option.none⟩
      [("WA_PHONE_NUMBER_ID", "123"), ("WA_ACCESS_TOKEN", "tok"),
        ("CSV_PATH", "n.csv"), ("PDF_PATH", "d.pdf"), ("DRY_RUN", "true"),
        ("TEMPLATE", "promo:en_US")] [] []
      [("WA_PHONE_NUMBER_ID", "123"), ("WA_ACCESS_TOKEN", "tok"),
        ("CSV_PATH", "n.csv"), ("PDF_PATH", "d.pdf"), ("DRY_RUN", "true"),
        ("TEMPLATE", "promo:en_US")]
      (by decide) (by decide)).2.1⟩⟩

/-! ## Exit codes (C8), empty-recipient abort (C9), accounting (C10) -/

theorem finish_run_completed_inv (w : World) (cfg : Config)
    (tpl : Option (String × String)) (numbers : List String) (media : String)
    (up : List NetEvent) (st : LoopState) (ev : List NetEvent)
    (ex : Option (List (List String)))
    (h : finish_run w cfg tpl numbers media up = .completed st ev ex) :
    st.success_count + st.failure_count = st.attempted.length ∧
    st.failed_numbers.length = st.failure_count := by
  unfold finish_run at h
  by_cases hint : (broadcast_loop cfg.dry_run tpl w media numbers).2 = true
  · rw [if_pos hint] at h
    cases h
  · rw [if_neg hint] at h
    injection h with h1 h2 h3
    subst h1
    exact broadcast_loop_aux_inv cfg.dry_run tpl w media numbers 0 initLoopState
      rfl rfl

theorem run_main_completed_inv (w : World) (env0 : Env)
    (fileVals : List (String × String)) (argv : List String) (st : LoopState)
    (ev : List NetEvent) (ex : Option (List (List String)))
    (h : run_main w env0 fileVals argv = .completed st ev ex) :
    st.success_count + st.failure_count = st.attempted.length ∧
    st.failed_numbers.length = st.failure_count := by
  rw [run_main] at h
  rcases hres : resolve_env env0 fileVals argv with _ | env
  · rw [hres] at h
    cases h
  · rw [hres] at h
    replace h : run_after_config w (gather_config env) = .completed st ev ex := h
    unfold run_after_config at h
    split at h
    · cases h
    split at h
    · cases h
    split at h
    · cases h
    split at h
    · cases h
    unfold run_broadcast at h
    split at h
    · exact finish_run_completed_inv _ _ _ _ _ _ _ _ _ h
    · split at h
      · cases h
      · exact finish_run_completed_inv _ _ _ _ _ _ _ _ _ h

/-- C8: exit-code contract.  A completed run exits 0 exactly when every
attempted recipient succeeded, and exits 1 as soon as one recipient
failed; every fatal configuration or file abort exits 1; a user
interrupt exits with the distinct code 130. -/
theorem c8_exit_codes (w : World) (env0 : Env)
    (fileVals : List (String × String)) (argv : List String) :
    (∀ st ev ex, run_main w env0 fileVals argv = .completed st ev ex →
      (((run_main w env0 fileVals argv).exitCode = 0) ↔
        st.success_count = st.attempted.length) ∧
      (0 < st.failure_count → (run_main w env0 fileVals argv).exitCode = 1)) ∧
    (∀ ev, run_main w env0 fileVals argv = .fatal ev →
      (run_main w env0 fileVals argv).exitCode = 1) ∧
    (∀ st ev, run_main w env0 fileVals argv = .interrupted st ev →
      (run_main w env0 fileVals argv).exitCode = 130 ∧ (130 : Nat) ≠ 0 ∧
        (130 : Nat) ≠ 1) := by
  refine ⟨?_, ?_, ?_⟩
  · intro st ev ex h
    have hinv := run_main_completed_inv w env0 fileVals argv st ev ex h
    rw [h]
    constructor
    · show ((if 0 < st.failure_count then (1 : Nat) else 0) = 0) ↔
        st.success_count = st.attempted.length
      by_cases hf : 0 < st.failure_count
      · rw [if_pos hf]
        constructor
        · intro h10
          omega
        · intro hs
          omega
      · rw [if_neg hf]
        constructor
        · intro _
          omega
        · intro _
          rfl
    · intro hf
      show (if 0 < st.failure_count then (1 : Nat) else 0) = 1
      rw [if_pos hf]
  · intro ev h
    rw [h]
    rfl
  · intro st ev h
    rw [h]
    exact ⟨rfl, by decide, by decide⟩

/-- Witness for C8: a one-recipient run in which everything succeeds
exits 0, and the same run interrupted before the first recipient exits
130. -/
theorem c8_exit_codes_witness :
    run_main
        ⟨.ok [["11111111"]], true, true, .ok "M", fun _ => .ok "t",
          fun _ => .ok "d", fun _ => "ts", Option.none⟩
        [("WA_PHONE_NUMBER_ID", "123"), ("WA_ACCESS_TOKEN", "tok"),
          ("CSV_PATH", "n.csv"), ("PDF_PATH", "d.pdf")] [] []
      = .completed ⟨1, 0, [], ["11111111"], [.documentEv "11111111"], ["M"]⟩
          [.uploadEv, .documentEv "11111111"] Option.none ∧
    (run_main
        ⟨.ok [["11111111"]], true, true, .ok "M", fun _ => .ok "t",
          fun _ => .ok "d", fun _ => "ts", Option.none⟩
        [("WA_PHONE_NUMBER_ID", "123"), ("WA_ACCESS_TOKEN", "tok"),
          ("CSV_PATH", "n.csv"), ("PDF_PATH", "d.pdf")] [] []).exitCode = 0 ∧
    (run_main
        ⟨.ok [["11111111"]], true, true, .ok "M", fun _ => .ok "t",
          fun _ => .ok "d", fun _ => "ts", some 0⟩
        [("WA_PHONE_NUMBER_ID", "123"), ("WA_ACCESS_TOKEN", "tok"),
          ("CSV_PATH", "n.csv"), ("PDF_PATH", "d.pdf")] [] []).exitCode = 130 :=
  ⟨by decide,
   ((c8_exit_codes
      ⟨.ok [["11111111"]], true, true, .ok "M", fun _ => .ok "t",
        fun _ => .ok "d", fun _ => "ts", Option.none⟩
      [("WA_PHONE_NUMBER_ID", "123"), ("WA_ACCESS_TOKEN", "tok"),
        ("CSV_PATH", "n.csv"), ("PDF_PATH", "d.pdf")] [] []).1
      ⟨1, 0, [], ["11111111"], [.documentEv "11111111"], ["M"]⟩
      [.uploadEv, .documentEv "11111111"] Option.none (by decide)).1.mpr
      (by decide),
   ((c8_exit_codes
      ⟨.ok [["11111111"]], true, true, .ok "M", fun _ => .ok "t",
        fun _ => .ok "d", fun _ => "ts", some 0⟩
      [("WA_PHONE_NUMBER_ID", "123"), ("WA_ACCESS_TOKEN", "tok"),
        ("CSV_PATH", "n.csv"), ("PDF_PATH", "d.pdf")] [] []).2.2
      initLoopState [.uploadEv] (by decide)).1⟩

/-- C9: empty-recipient abort.  Whenever the CSV is read successfully
but the recipient loader accepts no row, the run ends fatally with an
empty network-event trace — in particular the asset upload is never
invoked, and no send is attempted. -/
theorem c9_empty_recipients_abort (w : World) (env0 : Env)
    (fileVals : List (String × String)) (argv : List String)
    (rows : List (List String)) (hcsv : w.csvRows = .ok rows)
    (hempty : read_numbers_from_csv rows = []) :
    run_main w env0 fileVals argv = .fatal [] := by
  rw [run_main]
  rcases hres : resolve_env env0 fileVals argv with _ | env
  · rfl
  · show run_after_config w (gather_config env) = .fatal []
    unfold run_after_config
    split
    · rfl
    split
    · rfl
    split
    · rfl
    · rename_i rows2 hrows2
      have hr : rows2 = rows := by
        rw [hcsv] at hrows2
        injection hrows2 with hh
        exact hh.symm
      subst hr
      rw [if_pos hempty]

/-- Witness for C9: a CSV whose only row does not survive validation;
the run is fatal with zero network events even though the delivery
oracle would fail every call. -/
theorem c9_empty_recipients_abort_witness :
    run_main
        ⟨.ok [["abc"]], true, true, .exn "offline", fun _ => .exn "offline",
          fun _ => .exn "offline", fun _ => "ts", Option.none⟩
        [("WA_PHONE_NUMBER_ID", "123"), ("WA_ACCESS_TOKEN", "tok"),
          ("CSV_PATH", "n.csv"), ("PDF_PATH", "d.pdf")] [] []
      = .fatal [] :=
  c9_empty_recipients_abort
    ⟨.ok [["abc"]], true, true, .exn "offline", fun _ => .exn "offline",
      fun _ => .exn "offline", fun _ => "ts", Option.none⟩
    [("WA_PHONE_NUMBER_ID", "123"), ("WA_ACCESS_TOKEN", "tok"),
      ("CSV_PATH", "n.csv"), ("PDF_PATH", "d.pdf")] [] [] [["abc"]] rfl
    (by decide)

/-- C10: outcome accounting.  The final state of any broadcast loop
(dry or real, interrupted or not) classifies every processed recipient
exactly once — success count plus failure count equals the number of
attempted recipients and the failed-numbers list has exactly
failure-count entries; and for an uninterrupted run the state after the
first `k` iterations accounts for exactly the first `k` recipients. -/
theorem c10_outcome_accounting (dry : Bool) (tpl : Option (String × String))
    (w : World) (media : String) (numbers : List String) (k : Nat) :
    ((broadcast_loop dry tpl w media numbers).1.success_count
        + (broadcast_loop dry tpl w media numbers).1.failure_count
      = (broadcast_loop dry tpl w media numbers).1.attempted.length ∧
     (broadcast_loop dry tpl w media numbers).1.failed_numbers.length
      = (broadcast_loop dry tpl w media numbers).1.failure_count) ∧
    (w.interruptAt = none →
      (broadcast_loop dry tpl w media (numbers.take k)).1.success_count
          + (broadcast_loop dry tpl w media (numbers.take k)).1.failure_count
        = (numbers.take k).length ∧
      (broadcast_loop dry tpl w media (numbers.take k)).1.failed_numbers.length
        = (broadcast_loop dry tpl w media (numbers.take k)).1.failure_count ∧
      (broadcast_loop dry tpl w media (numbers.take k)).1.attempted
        = numbers.take k) := by
  constructor
  · exact broadcast_loop_aux_inv dry tpl w media numbers 0 initLoopState rfl rfl
  · intro hno
    have hatt := (broadcast_loop_aux_attempted dry tpl w media hno
      (numbers.take k) 0 initLoopState).1
    have hinv := broadcast_loop_aux_inv dry tpl w media (numbers.take k) 0
      initLoopState rfl rfl
    have hatt' : (broadcast_loop dry tpl w media (numbers.take k)).1.attempted
        = numbers.take k := by
      rw [broadcast_loop, hatt]
      rfl
    refine ⟨?_, hinv.2, hatt'⟩
    rw [broadcast_loop] at hatt' ⊢
    rw [hinv.1, hatt']

/-- Witness for C10 on a three-recipient run (one template failure, one
document failure) after two iterations. -/
theorem c10_outcome_accounting_witness :
    (broadcast_loop false (some ("promo", "en_US"))
        ⟨.ok [], true, true, .ok "M",
          fun i => if i = 0 then .exn "tboom" else .ok "t",
          fun i => if i = 1 then .exn "dboom" else .ok "d",
          fun _ => "ts", Option.none⟩
        "M" ["11111111", "22222222", "33333333"]).1.success_count
      + (broadcast_loop false (some ("promo", "en_US"))
        ⟨.ok [], true, true, .ok "M",
          fun i => if i = 0 then .exn "tboom" else .ok "t",
          fun i => if i = 1 then .exn "dboom" else .ok "d",
          fun _ => "ts", Option.none⟩
        "M" ["11111111", "22222222", "33333333"]).1.failure_count
      = (broadcast_loop false (some ("promo", "en_US"))
        ⟨.ok [], true, true, .ok "M",
          fun i => if i = 0 then .exn "tboom" else .ok "t",
          fun i => if i = 1 then .exn "dboom" else .ok "d",
          fun _ => "ts", Option.none⟩
        "M" ["11111111", "22222222", "33333333"]).1.attempted.length ∧
    (broadcast_loop false (some ("promo", "en_US"))
        ⟨.ok [], true, true, .ok "M",
          fun i => if i = 0 then .exn "tboom" else .ok "t",
          fun i => if i = 1 then .exn "dboom" else .ok "d",
          fun _ => "ts", Option.none⟩
        "M" (["11111111", "22222222", "33333333"].take 2)).1.attempted
      = ["11111111", "22222222", "33333333"].take 2 :=
  ⟨(c10_outcome_accounting false (some ("promo", "en_US"))
      ⟨.ok [], true, true, .ok "M",
        fun i => if i = 0 then .exn "tboom" else .ok "t",
        fun i => if i = 1 then .exn "dboom" else .ok "d",
        fun _ => "ts", Option.none⟩
      "M" ["11111111", "22222222", "33333333"] 2).1.1,
   ((c10_outcome_accounting false (some ("promo", "en_US"))
      ⟨.ok [], true, true, .ok "M",
        fun i => if i = 0 then .exn "tboom" else .ok "t",
        fun i => if i = 1 then .exn "dboom" else .ok "d",
        fun _ => "ts", Option.none⟩
      "M" ["11111111", "22222222", "33333333"] 2).2 rfl).2.2⟩
